import Mathlib

/-!
Verification of the Supervisor + Endpoint Reconciliation Engine of the
companion-docker ArduPilot manager (`ArduPilotManager.py`, `main.py`),
shallowly embedded in Lean 4.

The MAVLink proxy (`mavlink_proxy.Manager`), the `Endpoint` class, the
settings store and the board detector are external collaborators whose
sources are not part of the core; their observable behaviour is modelled
from the spec as an abstract environment (`ProxyEnv`) that decides which
proxy / settings operations succeed, plus an explicit supervisor state
(`APMState`) holding the proxy's live endpoint set, the in-memory
configuration document and the persisted (on-disk) document.
-/

/-- Endpoint record (`mavlink_proxy.Endpoint`).  Modelled from the spec: the
`Endpoint` class itself is not in the sources; the spec gives its attributes
(name, owner, connection kind, place, argument, protected, persistent) and
equality as all-attributes equality, with endpoints held in sets so that
duplicate registrations collapse. -/
structure Endpoint where
  name : String
  owner : String
  connection_type : String
  place : String
  argument : Nat
  «protected» : Bool
  persistent : Bool
deriving DecidableEq, Repr

/-- Kernel-reducible equality decision for `Except` results. -/
instance {ε α : Type} [DecidableEq ε] [DecidableEq α] : DecidableEq (Except ε α) :=
  fun x y =>
    match x, y with
    | .ok a, .ok b =>
      if h : a = b then .isTrue (congrArg Except.ok h)
      else .isFalse (fun hc => h (by cases hc; rfl))
    | .ok _, .error _ => .isFalse (fun hc => Except.noConfusion hc)
    | .error _, .ok _ => .isFalse (fun hc => Except.noConfusion hc)
    | .error a, .error b =>
      if h : a = b then .isTrue (congrArg Except.error h)
      else .isFalse (fun hc => h (by cases hc; rfl))

/-- Environment of external collaborators.  Modelled from the spec: the proxy
(`ProxyProcess`) exposes `addEndpoint`/`removeEndpoint` returning ok or error,
`clearEndpoints`, `restart() -> ok|Error`; the configuration store exposes
`save(Document) -> ok|Error`.  Each oracle decides, as a function of the
current live endpoint set, whether the corresponding operation succeeds.
`enumerate` gives the (unspecified, Python-set) iteration order the proxy's
bulk `add_endpoints` uses over a snapshot set. -/
structure ProxyEnv where
  addOk : Finset Endpoint → Endpoint → Bool
  removeOk : Finset Endpoint → Endpoint → Bool
  clearOk : Finset Endpoint → Bool
  saveOk : Finset Endpoint → Bool
  restartOk : Bool
  enumerate : Finset Endpoint → List Endpoint

/-- Modelled from the spec: `ProxyProcess.addEndpoint(Endpoint) -> ok|Error`.
On success the endpoint joins the proxy's live set (set semantics); on error
the live set is unchanged. -/
def ProxyEnv.add_endpoint (env : ProxyEnv) (live : Finset Endpoint)
    (e : Endpoint) : Option (Finset Endpoint) :=
  if env.addOk live e then some (insert e live) else none

/-- Modelled from the spec: `ProxyProcess.removeEndpoint(Endpoint) -> ok|Error`.
On success the endpoint leaves the proxy's live set; on error the live set is
unchanged. -/
def ProxyEnv.remove_endpoint (env : ProxyEnv) (live : Finset Endpoint)
    (e : Endpoint) : Option (Finset Endpoint) :=
  if env.removeOk live e then some (live.erase e) else none

/-- Modelled from the spec: clearing the proxy's entire endpoint set (used by
the rollback path).  On success the live set becomes empty; on error it is
unchanged. -/
def ProxyEnv.clear_endpoints (env : ProxyEnv) (live : Finset Endpoint) :
    Option (Finset Endpoint) :=
  if env.clearOk live then some ∅ else none

/-- The per-endpoint loop of `add_new_endpoints` (`ArduPilotManager.py`
lines 161-168): attempt `mavlink_manager.add_endpoint` for each endpoint in
iteration order; on the first failure stop and report the offending endpoint
together with the live set at that moment. -/
def addLoop (env : ProxyEnv) :
    List Endpoint → Finset Endpoint → Except (Endpoint × Finset Endpoint) (Finset Endpoint)
  | [], live => .ok live
  | e :: rest, live =>
    match env.add_endpoint live e with
    | some live' => addLoop env rest live'
    | none => .error (e, live)

/-- The per-endpoint loop of `remove_endpoints` (`ArduPilotManager.py`
lines 180-187): attempt `mavlink_manager.remove_endpoint` for each endpoint in
iteration order; on the first failure stop and report the offending endpoint
together with the live set at that moment. -/
def removeLoop (env : ProxyEnv) :
    List Endpoint → Finset Endpoint → Except (Endpoint × Finset Endpoint) (Finset Endpoint)
  | [], live => .ok live
  | e :: rest, live =>
    match env.remove_endpoint live e with
    | some live' => removeLoop env rest live'
    | none => .error (e, live)

/-- Modelled from the spec: the proxy's bulk `add_endpoints` used by the
rollback path re-adds a list of endpoints one by one; a failure partway
through raises, leaving the additions made so far in place.  This returns the
live set reached when the loop stops (at the end, or at the first failure). -/
def addRestore (env : ProxyEnv) : List Endpoint → Finset Endpoint → Finset Endpoint
  | [], live => live
  | e :: rest, live =>
    match env.add_endpoint live e with
    | some live' => addRestore env rest live'
    | none => live

/-- Errors raised by the reconciliation engine.  `protectedErr` is the
`ValueError` of `remove_endpoints` naming the offending protected endpoints;
`addErr`/`removeErr` carry the endpoint whose proxy operation failed.
Modelled from the spec: the proxy's add/remove failures surface as recoverable
validation errors (`ValueError`), e.g. a duplicate-name conflict. -/
inductive Err where
  | protectedErr : Finset Endpoint → Err
  | addErr : Endpoint → Err
  | removeErr : Endpoint → Err
deriving DecidableEq

/-- Supervisor state: the proxy's live endpoint set (`mavlink_manager`'s
endpoints), the in-memory configuration document's `endpoints` key
(`self.configuration["endpoints"]`), the persisted document's `endpoints` key
(what `settings.save` last wrote), a counter of successful proxy restarts, the
proxy's master endpoint and whether the proxy process was started. -/
structure APMState where
  live : Finset Endpoint
  config : Finset Endpoint
  disk : Finset Endpoint
  restarts : Nat
  master : Option Endpoint
  started : Bool
deriving DecidableEq

/-- `get_endpoints` (`ArduPilotManager.py` lines 153-155): pure read of the
proxy's live set. -/
def get_endpoints (st : APMState) : Finset Endpoint :=
  st.live

/-- `_save_endpoints_to_configuration` (`ArduPilotManager.py` lines 125-126):
write the given endpoint set into the configuration document's `endpoints`
key. -/
def save_endpoints_to_configuration (st : APMState) (endpoints : Finset Endpoint) :
    APMState :=
  { st with config := endpoints }

/-- `_reset_endpoints` (`ArduPilotManager.py` lines 136-142): inside a single
try-block, clear the proxy's endpoint set and re-add the snapshot; any
exception is caught and only logged, so this never raises.  If the clear
fails, the re-add is not attempted; if the re-add fails partway, the partial
state is kept.  Returns the proxy's live set afterwards. -/
def reset_endpoints (env : ProxyEnv) (live snapshot : Finset Endpoint) :
    Finset Endpoint :=
  match env.clear_endpoints live with
  | some cleared => addRestore env (env.enumerate snapshot) cleared
  | none => live

/-- `_update_endpoints` (`ArduPilotManager.py` lines 144-151): inside a single
try-block, recompute the persistent subset of the proxy's current live set,
write it into the configuration document, persist the document
(`settings.save`), and restart the proxy.  Any exception is caught and only
logged: a save failure skips the restart and leaves the disk state stale; a
restart failure leaves the committed state in place.  Never raises. -/
def update_endpoints (env : ProxyEnv) (st : APMState) : APMState :=
  let persistent_endpoints := st.live.filter (fun e => e.persistent)
  let st1 := save_endpoints_to_configuration st persistent_endpoints
  if env.saveOk persistent_endpoints then
    let st2 := { st1 with disk := persistent_endpoints }
    if env.restartOk then { st2 with restarts := st2.restarts + 1 } else st2
  else st1

/-- `add_new_endpoints` (`ArduPilotManager.py` lines 157-170): snapshot the
live set, attempt each add; on the first failure reset to the snapshot and
re-raise the original error; on full success run `_update_endpoints`.  The
returned pair is the supervisor state afterwards and the raised error, if
any.  The endpoint argument is a Python set; the list gives its (unspecified)
iteration order. -/
def add_new_endpoints (env : ProxyEnv) (new_endpoints : List Endpoint)
    (st : APMState) : APMState × Option Err :=
  let loaded_endpoints := get_endpoints st
  match addLoop env new_endpoints st.live with
  | .ok live' => (update_endpoints env { st with live := live' }, none)
  | .error (e, liveAtFailure) =>
    ({ st with live := reset_endpoints env liveAtFailure loaded_endpoints },
      some (.addErr e))

/-- `remove_endpoints` (`ArduPilotManager.py` lines 172-189): snapshot the
live set; reject the whole request with a `ValueError` naming the offending
endpoints if any requested endpoint is protected, before any mutation; then
attempt each remove, resetting to the snapshot and re-raising on the first
failure; on full success run `_update_endpoints`. -/
def remove_endpoints (env : ProxyEnv) (endpoints_to_remove : List Endpoint)
    (st : APMState) : APMState × Option Err :=
  let loaded_endpoints := get_endpoints st
  let protected_endpoints := endpoints_to_remove.toFinset.filter (fun e => e.«protected»)
  if protected_endpoints = ∅ then
    match removeLoop env endpoints_to_remove st.live with
    | .ok live' => (update_endpoints env { st with live := live' }, none)
    | .error (e, liveAtFailure) =>
      ({ st with live := reset_endpoints env liveAtFailure loaded_endpoints },
        some (.removeErr e))
  else (st, some (.protectedErr protected_endpoints))

/-- The default GCS outbound endpoint registered during startup
(`ArduPilotManager.py` line 88).  `app_name` is the runtime application name;
`dp` is the `Endpoint` constructor's default for `persistent` (the class is
not in the sources, so the default is left abstract). -/
def gcsLink (app_name : String) (dp : Bool) : Endpoint :=
  ⟨"GCS Link", app_name, "udpout", "192.168.2.1", 14550, true, dp⟩

/-- The default MAVLink2Rest outbound endpoint registered during startup
(`ArduPilotManager.py` line 91). -/
def mavlink2Rest (app_name : String) (dp : Bool) : Endpoint :=
  ⟨"MAVLink2Rest", app_name, "udpout", "127.0.0.1", 14000, true, dp⟩

/-- `start_mavlink_manager` (`ArduPilotManager.py` lines 85-96): a single
try-block adds the GCS Link endpoint and then the MAVLink2Rest endpoint; any
exception is caught and logged, so a failure of the first add skips the
second.  In every case the master endpoint is then set on the proxy and the
proxy is started. -/
def start_mavlink_manager (env : ProxyEnv) (app_name : String) (dp : Bool)
    (device : Endpoint) (st : APMState) : APMState :=
  let afterDefaults :=
    match add_new_endpoints env [gcsLink app_name dp] st with
    | (st1, some _) => st1
    | (st1, none) => (add_new_endpoints env [mavlink2Rest app_name dp] st1).1
  { afterDefaults with master := some device, started := true }

/-- Board types returned by the detector.  Modelled from the spec: the
detector's `FlightControllerType` enumeration is not in the sources; the spec
says it is an ordered enumeration (lower value = higher priority) with at
least `Navigator` and `Serial`, `Navigator` winning over `Serial`; `Unknown`
stands for any further member, which `start_board` treats as a contract
violation. -/
inductive FlightControllerType where
  | Navigator
  | Serial
  | Unknown
deriving DecidableEq, Repr

/-- Modelled from the spec: the enumeration's priority value
(lower = higher priority), with `Navigator` below `Serial`. -/
def FlightControllerType.value : FlightControllerType → Nat
  | .Navigator => 1
  | .Serial => 2
  | .Unknown => 3

/-- Outcome of one `start_board` call: `retry` is the `False` return (no board
detected, caller retries), the two flows are the `True` returns after starting
the corresponding board. -/
inductive BoardStart where
  | retry
  | navigatorFlow
  | serialFlow : String → BoardStart
deriving DecidableEq, Repr

/-- `start_board` (`ArduPilotManager.py` lines 98-117): return `False` on an
empty detection result; otherwise sort the candidates by board-type priority
value ascending (Python's stable sort) and dispatch on the first: `Navigator`
starts the navigator flow, `Serial` starts the serial flow at the detected
place, and any other board type raises a `RuntimeError`. -/
def start_board (boards : List (FlightControllerType × String)) :
    Except String BoardStart :=
  match boards.mergeSort (fun a b => decide (a.1.value ≤ b.1.value)) with
  | [] => .ok .retry
  | (t, place) :: _ =>
    if t = .Navigator then .ok .navigatorFlow
    else if t = .Serial then .ok (.serialFlow place)
    else .error "Invalid board type"

/-- Result of the supervisor's `run` loop: a flow was started at the given
attempt index, a fatal error aborted the loop at the given attempt index, or
the modelling fuel ran out. -/
inductive RunResult where
  | started : BoardStart → Nat → RunResult
  | fatal : String → Nat → RunResult
  | outOfFuel : RunResult
deriving DecidableEq, Repr

/-- `run` (`ArduPilotManager.py` lines 37-42): repeatedly call
`start_board(BoardDetector.detect())` until it returns `True`, warning and
sleeping between attempts; an exception raised by `start_board` propagates and
aborts the loop.  `detect k` is the detection result of attempt `k`; `fuel`
bounds the number of modelled iterations of the unbounded Python loop. -/
def runLoop (detect : Nat → List (FlightControllerType × String)) :
    Nat → Nat → RunResult
  | 0, _ => .outOfFuel
  | fuel + 1, k =>
    match start_board (detect k) with
    | .error msg => .fatal msg k
    | .ok .retry => runLoop detect fuel (k + 1)
    | .ok flow => .started flow k

/-- An HTTP response of the endpoint API: status code and, on error, the
`{message}` body carrying the raised error. -/
structure ApiResponse where
  status : Nat
  message : Option Err
deriving DecidableEq

/-- `create_endpoints` (`main.py` lines 69-76): `POST /endpoints` calls
`add_new_endpoints`; a `ValueError` is answered with 400 and a `{message}`
body naming the error, success with the default 201 status. -/
def create_endpoints (env : ProxyEnv) (endpoints : List Endpoint)
    (st : APMState) : APMState × ApiResponse :=
  match add_new_endpoints env endpoints st with
  | (st', some err) => (st', ⟨400, some err⟩)
  | (st', none) => (st', ⟨201, none⟩)

/-- `remove_endpoints` handler (`main.py` lines 79-86): `DELETE /endpoints`
calls the engine's `remove_endpoints`; a `ValueError` is answered with 400 and
a `{message}` body naming the error, success with the default 200 status. -/
def remove_endpoints_api (env : ProxyEnv) (endpoints : List Endpoint)
    (st : APMState) : APMState × ApiResponse :=
  match remove_endpoints env endpoints st with
  | (st', some err) => (st', ⟨400, some err⟩)
  | (st', none) => (st', ⟨200, none⟩)

/-! ### Helper lemmas about the per-endpoint loops -/

/-- A successful add loop makes the live set the union of the starting set and
the added endpoints. -/
theorem addLoop_ok_eq (env : ProxyEnv) :
    ∀ (l : List Endpoint) (s s' : Finset Endpoint),
      addLoop env l s = .ok s' → s' = s ∪ l.toFinset := by
  intro l
  induction l with
  | nil =>
    intro s s' h
    simp [addLoop] at h
    simp [h]
  | cons e rest ih =>
    intro s s' h
    simp only [addLoop, ProxyEnv.add_endpoint] at h
    by_cases hok : env.addOk s e = true
    · simp [hok] at h
      have := ih (insert e s) s' h
      rw [this]
      simp [List.toFinset_cons, Finset.insert_union, Finset.union_insert]
    · simp [hok] at h

/-- If every add the loop can attempt succeeds, the add loop succeeds and
returns the union. -/
theorem addLoop_all_ok (env : ProxyEnv) :
    ∀ (l : List Endpoint) (s : Finset Endpoint),
      (∀ (s' : Finset Endpoint) (e : Endpoint), e ∈ l → env.addOk s' e = true) →
      addLoop env l s = .ok (s ∪ l.toFinset) := by
  intro l
  induction l with
  | nil =>
    intro s _
    simp [addLoop]
  | cons e rest ih =>
    intro s h
    have hok : env.addOk s e = true := h s e (by simp)
    have hrest : ∀ (s' : Finset Endpoint) (e' : Endpoint), e' ∈ rest → env.addOk s' e' = true := by
      intro s' e' he'
      exact h s' e' (by simp [he'])
    simp only [addLoop, ProxyEnv.add_endpoint, hok, if_pos]
    rw [ih (insert e s) hrest]
    simp [List.toFinset_cons, Finset.insert_union, Finset.union_insert]

/-- If every add the partial loop can attempt succeeds, the partial re-add
reaches the union. -/
theorem addRestore_all_ok (env : ProxyEnv) :
    ∀ (l : List Endpoint) (s : Finset Endpoint),
      (∀ (s' : Finset Endpoint) (e : Endpoint), e ∈ l → env.addOk s' e = true) →
      addRestore env l s = s ∪ l.toFinset := by
  intro l
  induction l with
  | nil =>
    intro s _
    simp [addRestore]
  | cons e rest ih =>
    intro s h
    have hok : env.addOk s e = true := h s e (by simp)
    simp only [addRestore, ProxyEnv.add_endpoint, hok, if_pos]
    rw [ih (insert e s) (fun s' e' he' => h s' e' (by simp [he']))]
    simp [List.toFinset_cons, Finset.insert_union, Finset.union_insert]

/-! ### Concrete endpoints, states and environments used by witnesses -/

/-- Concrete persistent, unprotected endpoint. -/
def eA : Endpoint := ⟨"A", "o", "udpin", "h", 1, false, true⟩

/-- Concrete non-persistent, unprotected endpoint. -/
def eB : Endpoint := ⟨"B", "o", "udpout", "h", 2, false, false⟩

/-- Concrete persistent, unprotected endpoint. -/
def eC : Endpoint := ⟨"C", "o", "tcp", "h", 3, false, true⟩

/-- Concrete protected endpoint. -/
def eP : Endpoint := ⟨"P", "o", "serial", "d", 4, true, true⟩

/-- The empty supervisor state. -/
def st0 : APMState := ⟨∅, ∅, ∅, 0, none, false⟩

/-- An iteration order for subsets of the concrete endpoint universe. -/
def enumU (s : Finset Endpoint) : List Endpoint :=
  [eA, eB, eC, eP].filter (fun e => decide (e ∈ s))

/-- Environment in which every external operation succeeds. -/
def envAll : ProxyEnv :=
  ⟨fun _ _ => true, fun _ _ => true, fun _ => true, fun _ => true, true, enumU⟩

/-! ### C1: protected endpoints reject the whole removal -/

/-- C1: any removal request containing at least one protected endpoint fails
with a validation error naming the offending (protected) endpoints, no proxy
mutation is attempted, and the whole supervisor state — live, in-memory and
persisted endpoint sets — is unchanged. -/
theorem C1_protected_removal_rejected (env : ProxyEnv) (l : List Endpoint)
    (st : APMState) (h : ∃ e ∈ l, e.«protected» = true) :
    remove_endpoints env l st =
      (st, some (.protectedErr (l.toFinset.filter (fun e => e.«protected»)))) := by
  obtain ⟨e, he, hp⟩ := h
  have hne : ¬ (l.toFinset.filter (fun e => e.«protected») = ∅) := by
    intro hcontra
    have hmem : e ∈ l.toFinset.filter (fun e => e.«protected») := by
      simp [Finset.mem_filter, List.mem_toFinset, he, hp]
    rw [hcontra] at hmem
    simp at hmem
  simp only [remove_endpoints, hne, if_neg, not_false_iff]

/-- C1 witness: removing the concrete protected endpoint `eP` from the empty
state is rejected with a `ValueError` naming `eP` and leaves the state
untouched. -/
theorem C1_witness :
    (∃ e ∈ [eP], e.«protected» = true) ∧
    remove_endpoints envAll [eP] st0 =
      (st0, some (.protectedErr (([eP] : List Endpoint).toFinset.filter
        (fun e => e.«protected»)))) :=
  ⟨⟨eP, by decide⟩, C1_protected_removal_rejected envAll [eP] st0 ⟨eP, by decide⟩⟩

/-! ### C2: rollback on a partially failed add -/

/-- C2: if some endpoint's proxy add fails during `add_new_endpoints`, the
engine rolls back by clearing the proxy's endpoint set and re-adding the
pre-operation snapshot, and re-raises the original add error; provided the
rollback operations themselves succeed (the clear works and every re-add of
the snapshot works), the state afterwards — live set, in-memory configuration
and persisted configuration — equals the pre-call state exactly, with the
original error surfaced to the caller. -/
theorem C2_add_failure_rolls_back (env : ProxyEnv) (new : List Endpoint)
    (st : APMState) (e : Endpoint) (liveF : Finset Endpoint)
    (hfail : addLoop env new st.live = .error (e, liveF))
    (hclear : env.clearOk liveF = true)
    (henum : (env.enumerate st.live).toFinset = st.live)
    (haddok : ∀ (s' : Finset Endpoint) (e' : Endpoint),
      e' ∈ env.enumerate st.live → env.addOk s' e' = true) :
    add_new_endpoints env new st = (st, some (.addErr e)) := by
  have hreset : reset_endpoints env liveF (get_endpoints st) = st.live := by
    unfold reset_endpoints ProxyEnv.clear_endpoints get_endpoints
    rw [if_pos hclear]
    show addRestore env (env.enumerate st.live) ∅ = st.live
    rw [addRestore_all_ok env _ ∅ haddok, henum]
    simp
  unfold add_new_endpoints
  rw [hfail]
  show ({ st with live := reset_endpoints env liveF (get_endpoints st) },
    some (Err.addErr e)) = (st, some (.addErr e))
  rw [hreset]

/-- Supervisor state whose live, in-memory and persisted endpoint sets all
hold exactly `eA`. -/
def stA : APMState := ⟨{eA}, {eA}, {eA}, 0, none, false⟩

/-- Environment in which adding `eC` fails and everything else succeeds. -/
def envC2 : ProxyEnv :=
  ⟨fun _ e => decide (e ≠ eC), fun _ _ => true, fun _ => true, fun _ => true,
    true, enumU⟩

/-- C2 witness: adding `[eB, eC]` to the state holding `eA` succeeds for `eB`
and fails at `eC`; the call rolls back to exactly the pre-call state and
surfaces the add error for `eC`. -/
theorem C2_witness :
    addLoop envC2 [eB, eC] stA.live = .error (eC, insert eB {eA}) ∧
    add_new_endpoints envC2 [eB, eC] stA = (stA, some (.addErr eC)) :=
  ⟨by decide,
    C2_add_failure_rolls_back envC2 [eB, eC] stA eC (insert eB {eA})
      (by decide) (by decide) (by decide)
      (fun s' e' he' => by
        have he2 : e' ∈ enumU stA.live := he'
        rw [(by decide : enumU stA.live = [eA])] at he2
        have : e' = eA := by simpa using he2
        subst this
        rfl)⟩

/-! ### C3: a fully successful mutation commits and restarts -/

/-- What the commit step leaves behind after a fully successful mutation call
`res`: no error raised, the live set is the fully mutated set, the in-memory
configuration holds exactly the persistent subset of the current live set,
and — when the save succeeds — the persisted document holds that same set and
the proxy restart is attempted (counted when it succeeds), a restart failure
leaving the committed state in place; when the save fails, disk and restart
count are untouched. -/
def commitFacts (env : ProxyEnv) (st : APMState) (live' : Finset Endpoint)
    (res : APMState × Option Err) : Prop :=
  res.2 = none ∧
  res.1.live = live' ∧
  res.1.config = live'.filter (fun e => e.persistent) ∧
  (env.saveOk (live'.filter (fun e => e.persistent)) = true →
    res.1.disk = live'.filter (fun e => e.persistent) ∧
    res.1.restarts = st.restarts + (if env.restartOk then 1 else 0)) ∧
  (env.saveOk (live'.filter (fun e => e.persistent)) = false →
    res.1.disk = st.disk ∧ res.1.restarts = st.restarts)

/-- The commit step (`_update_endpoints`) recomputes the persistent subset of
the current live set, writes it to the configuration document, persists it
when the save succeeds, restarts when the restart succeeds, and never undoes
the live or committed state. -/
theorem update_endpoints_facts (env : ProxyEnv) (st : APMState) :
    (update_endpoints env st).live = st.live ∧
    (update_endpoints env st).config = st.live.filter (fun e => e.persistent) ∧
    (env.saveOk (st.live.filter (fun e => e.persistent)) = true →
      (update_endpoints env st).disk = st.live.filter (fun e => e.persistent) ∧
      (update_endpoints env st).restarts = st.restarts + (if env.restartOk then 1 else 0)) ∧
    (env.saveOk (st.live.filter (fun e => e.persistent)) = false →
      (update_endpoints env st).disk = st.disk ∧
      (update_endpoints env st).restarts = st.restarts) := by
  unfold update_endpoints save_endpoints_to_configuration
  by_cases hs : env.saveOk (st.live.filter (fun e => e.persistent)) = true
  · by_cases hr : env.restartOk = true <;> simp [hs, hr]
  · simp [hs]

/-- C3: whenever every per-endpoint proxy operation of an
`add_new_endpoints` or `remove_endpoints` call succeeds, the call reports
success and commits: the persistent subset of the proxy's current live set is
written into the configuration document's endpoints key, persisted, and the
proxy is restarted, a restart failure not undoing the committed live and
persisted state. -/
theorem C3_success_commits (env : ProxyEnv) (l : List Endpoint)
    (st : APMState) (live' : Finset Endpoint) :
    (addLoop env l st.live = .ok live' →
      commitFacts env st live' (add_new_endpoints env l st)) ∧
    (l.toFinset.filter (fun e => e.«protected») = ∅ →
      removeLoop env l st.live = .ok live' →
      commitFacts env st live' (remove_endpoints env l st)) := by
  constructor
  · intro hok
    unfold add_new_endpoints
    rw [hok]
    show commitFacts env st live' (update_endpoints env { st with live := live' }, none)
    have hf := update_endpoints_facts env { st with live := live' }
    unfold commitFacts
    simpa using hf
  · intro hprot hok
    unfold remove_endpoints
    rw [if_pos hprot, hok]
    show commitFacts env st live' (update_endpoints env { st with live := live' }, none)
    have hf := update_endpoints_facts env { st with live := live' }
    unfold commitFacts
    simpa using hf

/-- Supervisor state whose live set holds `eA` and `eB`. -/
def stAB : APMState := ⟨{eA, eB}, ∅, ∅, 0, none, false⟩

/-- C3 witness: adding `[eA, eB]` to the empty state succeeds entirely and
commits; removing `[eB]` from the state holding `{eA, eB}` succeeds entirely
and commits. -/
theorem C3_witness :
    (addLoop envAll [eA, eB] st0.live = .ok ({eA, eB} : Finset Endpoint) ∧
      commitFacts envAll st0 {eA, eB} (add_new_endpoints envAll [eA, eB] st0)) ∧
    (([eB] : List Endpoint).toFinset.filter (fun e => e.«protected») = ∅ ∧
      removeLoop envAll [eB] stAB.live = .ok ({eA} : Finset Endpoint) ∧
      commitFacts envAll stAB {eA} (remove_endpoints envAll [eB] stAB)) :=
  ⟨⟨by decide, (C3_success_commits envAll [eA, eB] st0 {eA, eB}).1 (by decide)⟩,
    ⟨by decide, by decide,
      (C3_success_commits envAll [eB] stAB {eA}).2 (by decide) (by decide)⟩⟩

/-! ### C4 and C5: board selection -/

/-- The dispatch `start_board` performs on the selected (first after sorting)
candidate (`ArduPilotManager.py` lines 108-117). -/
def boardDispatch (b : FlightControllerType × String) : Except String BoardStart :=
  if b.1 = .Navigator then .ok .navigatorFlow
  else if b.1 = .Serial then .ok (.serialFlow b.2)
  else .error "Invalid board type"

/-- The head of the priority-sorted candidate list is a candidate of minimal
board-type priority value. -/
theorem mergeSort_head_min (boards : List (FlightControllerType × String))
    (b : FlightControllerType × String) (bs : List (FlightControllerType × String))
    (hs : boards.mergeSort (fun a b => decide (a.1.value ≤ b.1.value)) = b :: bs) :
    b ∈ boards ∧ ∀ b' ∈ boards, b.1.value ≤ b'.1.value := by
  have hperm : (boards.mergeSort (fun a b => decide (a.1.value ≤ b.1.value))).Perm boards :=
    List.mergeSort_perm boards _
  have hpair : (boards.mergeSort (fun a b => decide (a.1.value ≤ b.1.value))).Pairwise
      (fun a b => (decide (a.1.value ≤ b.1.value)) = true) := by
    apply List.sorted_mergeSort
    · intro a b c hab hbc
      simp only [decide_eq_true_eq] at hab hbc ⊢
      omega
    · intro a b
      simp [Nat.le_total]
  rw [hs] at hperm hpair
  constructor
  · exact hperm.subset (by simp)
  · intro b' hb'
    have hmem : b' ∈ b :: bs := (hperm.mem_iff).mpr hb'
    rcases List.mem_cons.mp hmem with heq | hmem'
    · rw [heq]
    · have := (List.pairwise_cons.mp hpair).1 b' hmem'
      simpa using this

/-- C4: on a non-empty detection result `start_board` selects deterministically
by sorting ascending on board-type priority value and dispatching on the
first, so the selected candidate is of minimal priority value among the
input; in particular, for `[(Serial, x), (Navigator, p)]` in either order the
Navigator flow is started. -/
theorem C4_board_priority (boards : List (FlightControllerType × String))
    (h : boards ≠ []) :
    (∃ b, b ∈ boards ∧ (∀ b' ∈ boards, b.1.value ≤ b'.1.value) ∧
      start_board boards = boardDispatch b) ∧
    (∀ x p : String,
      start_board [(.Serial, x), (.Navigator, p)] = .ok .navigatorFlow ∧
      start_board [(.Navigator, p), (.Serial, x)] = .ok .navigatorFlow) := by
  constructor
  · cases hs : boards.mergeSort (fun a b => decide (a.1.value ≤ b.1.value)) with
    | nil =>
      exfalso
      have hperm := List.mergeSort_perm boards
        (fun a b => decide (a.1.value ≤ b.1.value))
      rw [hs] at hperm
      exact h hperm.symm.eq_nil
    | cons b bs =>
      obtain ⟨hmem, hmin⟩ := mergeSort_head_min boards b bs hs
      refine ⟨b, hmem, hmin, ?_⟩
      obtain ⟨t, place⟩ := b
      unfold start_board boardDispatch
      rw [hs]
  · intro x p
    constructor
    · unfold start_board
      simp [List.mergeSort, List.splitInTwo, List.merge, FlightControllerType.value]
    · unfold start_board
      simp [List.mergeSort, List.splitInTwo, List.merge, FlightControllerType.value]

/-- C4 witness: the concrete two-candidate detection results of the claim. -/
theorem C4_witness :
    ([((.Serial : FlightControllerType), "/dev/ttyX"), (.Navigator, "nav")] ≠
        ([] : List (FlightControllerType × String))) ∧
    ((∃ b, b ∈ [((.Serial : FlightControllerType), "/dev/ttyX"), (.Navigator, "nav")] ∧
      (∀ b' ∈ [((.Serial : FlightControllerType), "/dev/ttyX"), (.Navigator, "nav")],
        b.1.value ≤ b'.1.value) ∧
      start_board [(.Serial, "/dev/ttyX"), (.Navigator, "nav")] = boardDispatch b) ∧
    (∀ x p : String,
      start_board [(.Serial, x), (.Navigator, p)] = .ok .navigatorFlow ∧
      start_board [(.Navigator, p), (.Serial, x)] = .ok .navigatorFlow)) :=
  ⟨by simp,
    C4_board_priority [(.Serial, "/dev/ttyX"), (.Navigator, "nav")] (by simp)⟩

/-- C5: if the priority-sorted detection result starts with a candidate whose
board type is neither `Navigator` nor `Serial`, `start_board` raises a fatal
`RuntimeError` and the `run` loop aborts at that very attempt (no flow is
started and there is no retry); if instead the detection result is empty,
`start_board` returns false and the `run` loop stays in detection, retrying at
the next attempt. -/
theorem C5_fatal_unknown_and_empty_retry :
    (∀ (detect : Nat → List (FlightControllerType × String)) (fuel k : Nat)
        (b : FlightControllerType × String) (bs : List (FlightControllerType × String)),
      (detect k).mergeSort (fun a b => decide (a.1.value ≤ b.1.value)) = b :: bs →
      b.1 ≠ .Navigator → b.1 ≠ .Serial →
      runLoop detect (fuel + 1) k = .fatal "Invalid board type" k) ∧
    (∀ (detect : Nat → List (FlightControllerType × String)) (fuel k : Nat),
      detect k = [] →
      start_board (detect k) = .ok .retry ∧
      runLoop detect (fuel + 1) k = runLoop detect fuel (k + 1)) := by
  constructor
  · intro detect fuel k b bs hsort hb1 hb2
    obtain ⟨t, place⟩ := b
    simp at hb1 hb2
    have hsb : start_board (detect k) = .error "Invalid board type" := by
      unfold start_board
      rw [hsort]
      simp [hb1, hb2]
    unfold runLoop
    rw [hsb]
  · intro detect fuel k hempty
    have hsb : start_board (detect k) = .ok .retry := by
      rw [hempty]
      unfold start_board
      simp
    refine ⟨hsb, ?_⟩
    conv_lhs => unfold runLoop
    rw [hsb]

/-- Detection stream that always reports a single board of an unknown type. -/
def detectU : Nat → List (FlightControllerType × String) :=
  fun _ => [(.Unknown, "u")]

/-- Detection stream that never reports a board. -/
def detectE : Nat → List (FlightControllerType × String) :=
  fun _ => []

/-- C5 witness: an unknown-board detection aborts the run loop fatally on
attempt 0; an empty detection keeps the loop retrying into attempt 1. -/
theorem C5_witness :
    ((detectU 0).mergeSort (fun a b => decide (a.1.value ≤ b.1.value)) =
        [((.Unknown : FlightControllerType), "u")] ∧
      ((.Unknown : FlightControllerType), "u").1 ≠ .Navigator ∧
      ((.Unknown : FlightControllerType), "u").1 ≠ .Serial ∧
      runLoop detectU 1 0 = .fatal "Invalid board type" 0) ∧
    (detectE 0 = [] ∧
      start_board (detectE 0) = .ok .retry ∧
      runLoop detectE 1 0 = runLoop detectE 0 1) :=
  ⟨⟨by simp [detectU], by simp, by simp,
      C5_fatal_unknown_and_empty_retry.1 detectU 0 0 (.Unknown, "u") []
        (by simp [detectU]) (by simp) (by simp)⟩,
    ⟨rfl,
      (C5_fatal_unknown_and_empty_retry.2 detectE 0 0 rfl).1,
      (C5_fatal_unknown_and_empty_retry.2 detectE 0 0 rfl).2⟩⟩

/-! ### C6: HTTP status codes of the endpoint API -/

/-- C6: whenever the reconciliation engine raises an error — a
protected-endpoint rejection or an add/remove failure — the corresponding
HTTP handler answers 400 with a body naming that error; on success
`POST /endpoints` answers 201 and `DELETE /endpoints` answers 200. -/
theorem C6_http_statuses (env : ProxyEnv) (l : List Endpoint) (st : APMState) :
    (∀ err : Err, (add_new_endpoints env l st).2 = some err →
      (create_endpoints env l st).2 = ⟨400, some err⟩) ∧
    ((add_new_endpoints env l st).2 = none →
      (create_endpoints env l st).2 = ⟨201, none⟩) ∧
    (∀ err : Err, (remove_endpoints env l st).2 = some err →
      (remove_endpoints_api env l st).2 = ⟨400, some err⟩) ∧
    ((remove_endpoints env l st).2 = none →
      (remove_endpoints_api env l st).2 = ⟨200, none⟩) := by
  refine ⟨?_, ?_, ?_, ?_⟩
  · intro err herr
    unfold create_endpoints
    rcases hres : add_new_endpoints env l st with ⟨st', o⟩
    rw [hres] at herr
    simp at herr
    rw [herr]
  · intro hnone
    unfold create_endpoints
    rcases hres : add_new_endpoints env l st with ⟨st', o⟩
    rw [hres] at hnone
    simp at hnone
    rw [hnone]
  · intro err herr
    unfold remove_endpoints_api
    rcases hres : remove_endpoints env l st with ⟨st', o⟩
    rw [hres] at herr
    simp at herr
    rw [herr]
  · intro hnone
    unfold remove_endpoints_api
    rcases hres : remove_endpoints env l st with ⟨st', o⟩
    rw [hres] at hnone
    simp at hnone
    rw [hnone]

/-- C6 witness: a successful POST answers 201; a DELETE naming the protected
endpoint `eP` answers 400 with the protected-endpoint error in the body. -/
theorem C6_witness :
    ((add_new_endpoints envAll [eA] st0).2 = none ∧
      (create_endpoints envAll [eA] st0).2 = ⟨201, none⟩) ∧
    ((remove_endpoints envAll [eP] st0).2 = some (.protectedErr {eP}) ∧
      (remove_endpoints_api envAll [eP] st0).2 = ⟨400, some (.protectedErr {eP})⟩) :=
  ⟨⟨by decide, (C6_http_statuses envAll [eA] st0).2.1 (by decide)⟩,
    ⟨by decide,
      (C6_http_statuses envAll [eP] st0).2.2.1 (.protectedErr {eP}) (by decide)⟩⟩

/-! ### C7: adding the same set twice is idempotent -/

/-- C7: when the proxy accepts every add of the request (set semantics: re-adds
of already-present endpoints collapse), calling `add_new_endpoints` twice with
the same endpoint set leaves the live, in-memory and persisted endpoint sets
identical to calling it once. -/
theorem C7_idempotent_add (env : ProxyEnv) (new : List Endpoint) (st : APMState)
    (hadd : ∀ (s : Finset Endpoint) (e : Endpoint), e ∈ new → env.addOk s e = true) :
    (add_new_endpoints env new (add_new_endpoints env new st).1).1.live =
      (add_new_endpoints env new st).1.live ∧
    (add_new_endpoints env new (add_new_endpoints env new st).1).1.config =
      (add_new_endpoints env new st).1.config ∧
    (add_new_endpoints env new (add_new_endpoints env new st).1).1.disk =
      (add_new_endpoints env new st).1.disk := by
  have honce : add_new_endpoints env new st =
      (update_endpoints env { st with live := st.live ∪ new.toFinset }, none) := by
    unfold add_new_endpoints
    rw [addLoop_all_ok env new st.live hadd]
  have heq1 : (add_new_endpoints env new st).1 =
      update_endpoints env { st with live := st.live ∪ new.toFinset } := by
    rw [honce]
  have hlive1 : (update_endpoints env { st with live := st.live ∪ new.toFinset }).live =
      st.live ∪ new.toFinset :=
    (update_endpoints_facts env _).1
  have h2 : addLoop env new
      (update_endpoints env { st with live := st.live ∪ new.toFinset }).live =
      .ok (st.live ∪ new.toFinset) := by
    rw [hlive1, addLoop_all_ok env new _ hadd, Finset.union_assoc, Finset.union_self]
  have htwice : add_new_endpoints env new
      (update_endpoints env { st with live := st.live ∪ new.toFinset }) =
      (update_endpoints env
        { update_endpoints env { st with live := st.live ∪ new.toFinset } with
          live := st.live ∪ new.toFinset }, none) := by
    unfold add_new_endpoints
    rw [h2]
  have heq2 : (add_new_endpoints env new
      (update_endpoints env { st with live := st.live ∪ new.toFinset })).1 =
      update_endpoints env
        { update_endpoints env { st with live := st.live ∪ new.toFinset } with
          live := st.live ∪ new.toFinset } := by
    rw [htwice]
  rw [heq1, heq2]
  refine ⟨?_, ?_, ?_⟩
  · rw [(update_endpoints_facts env _).1, hlive1]
  · rw [(update_endpoints_facts env _).2.1, (update_endpoints_facts env _).2.1]
  · by_cases hs : env.saveOk
        ((st.live ∪ new.toFinset).filter (fun e => e.persistent)) = true
    · exact (((update_endpoints_facts env
          { update_endpoints env { st with live := st.live ∪ new.toFinset } with
            live := st.live ∪ new.toFinset }).2.2.1 hs).1).trans
        ((((update_endpoints_facts env
          { st with live := st.live ∪ new.toFinset }).2.2.1 hs).1).symm)
    · have hs' : env.saveOk
          ((st.live ∪ new.toFinset).filter (fun e => e.persistent)) = false := by
        simpa using hs
      exact (((update_endpoints_facts env _).2.2.2 hs').1)

/-- C7 witness: adding `[eA, eB]` twice to the empty state leaves the live,
in-memory and persisted endpoint sets identical to adding it once. -/
theorem C7_witness :
    (∀ (s : Finset Endpoint) (e : Endpoint), e ∈ [eA, eB] → envAll.addOk s e = true) ∧
    ((add_new_endpoints envAll [eA, eB] (add_new_endpoints envAll [eA, eB] st0).1).1.live =
      (add_new_endpoints envAll [eA, eB] st0).1.live ∧
    (add_new_endpoints envAll [eA, eB] (add_new_endpoints envAll [eA, eB] st0).1).1.config =
      (add_new_endpoints envAll [eA, eB] st0).1.config ∧
    (add_new_endpoints envAll [eA, eB] (add_new_endpoints envAll [eA, eB] st0).1).1.disk =
      (add_new_endpoints envAll [eA, eB] st0).1.disk) :=
  ⟨fun _ _ _ => rfl, C7_idempotent_add envAll [eA, eB] st0 (fun _ _ _ => rfl)⟩

/-! ### C8: commit-step errors are swallowed -/

/-- Environment in which every proxy operation succeeds but persisting the
configuration document fails. -/
def envNoSave : ProxyEnv :=
  ⟨fun _ _ => true, fun _ _ => true, fun _ => true, fun _ => false, true, enumU⟩

/-- C8: when every per-endpoint proxy operation succeeds, the mutation call
reports success to the caller no matter what happens inside the commit step —
all exceptions from writing, saving or restarting are caught and logged — so
the caller can observe success while the on-disk configuration diverges from
the live endpoint set (concretely: with a failing save, adding the persistent
endpoint `eA` reports success yet leaves the persisted document without it). -/
theorem C8_commit_errors_swallowed (env : ProxyEnv) (l : List Endpoint)
    (st : APMState) :
    (∀ live' : Finset Endpoint, addLoop env l st.live = .ok live' →
      (add_new_endpoints env l st).2 = none) ∧
    (l.toFinset.filter (fun e => e.«protected») = ∅ →
      ∀ live' : Finset Endpoint, removeLoop env l st.live = .ok live' →
      (remove_endpoints env l st).2 = none) ∧
    ((add_new_endpoints envNoSave [eA] st0).2 = none ∧
      (add_new_endpoints envNoSave [eA] st0).1.disk ≠
        (add_new_endpoints envNoSave [eA] st0).1.live.filter (fun e => e.persistent)) := by
  refine ⟨?_, ?_, by decide, by decide⟩
  · intro live' h
    unfold add_new_endpoints
    rw [h]
  · intro hprot live' h
    unfold remove_endpoints
    rw [if_pos hprot, h]

/-- C8 witness: with a failing save, every proxy add succeeding makes the call
report success. -/
theorem C8_witness :
    addLoop envNoSave [eA] st0.live = .ok ({eA} : Finset Endpoint) ∧
    (add_new_endpoints envNoSave [eA] st0).2 = none :=
  ⟨by decide, (C8_commit_errors_swallowed envNoSave [eA] st0).1 {eA} (by decide)⟩

/-! ### C9: default-endpoint registration during startup -/

/-- C9: the two default-endpoint registrations of `start_mavlink_manager` sit
in a single try-block, so if adding the GCS Link endpoint fails the
MAVLink2Rest endpoint is never attempted (the resulting state is exactly the
state after the failed GCS call, plus master and started); and in every case
the master endpoint is set on the proxy and the proxy is started. -/
theorem C9_default_endpoint_registration (env : ProxyEnv) (app_name : String)
    (dp : Bool) (device : Endpoint) (st : APMState) :
    ((add_new_endpoints env [gcsLink app_name dp] st).2.isSome = true →
      start_mavlink_manager env app_name dp device st =
        { (add_new_endpoints env [gcsLink app_name dp] st).1 with
          master := some device, started := true }) ∧
    ((start_mavlink_manager env app_name dp device st).master = some device ∧
      (start_mavlink_manager env app_name dp device st).started = true) := by
  constructor
  · intro hfail
    unfold start_mavlink_manager
    rcases hres : add_new_endpoints env [gcsLink app_name dp] st with ⟨st1, o⟩
    rw [hres] at hfail
    cases o with
    | none => simp at hfail
    | some err => rfl
  · unfold start_mavlink_manager
    rcases hres : add_new_endpoints env [gcsLink app_name dp] st with ⟨st1, o⟩
    cases o with
    | none => exact ⟨rfl, rfl⟩
    | some err => exact ⟨rfl, rfl⟩

/-- Environment in which every proxy add fails. -/
def envNoAdd : ProxyEnv :=
  ⟨fun _ _ => false, fun _ _ => true, fun _ => true, fun _ => true, true, enumU⟩

/-- C9 witness: with the GCS Link add failing, startup never attempts the
MAVLink2Rest endpoint (the state is exactly the failed-GCS state plus master
and started), and the master endpoint is set and the proxy started. -/
theorem C9_witness :
    ((add_new_endpoints envNoAdd [gcsLink "apm" false] st0).2.isSome = true ∧
      start_mavlink_manager envNoAdd "apm" false eP st0 =
        { (add_new_endpoints envNoAdd [gcsLink "apm" false] st0).1 with
          master := some eP, started := true }) ∧
    ((start_mavlink_manager envNoAdd "apm" false eP st0).master = some eP ∧
      (start_mavlink_manager envNoAdd "apm" false eP st0).started = true) :=
  ⟨⟨by decide,
      (C9_default_endpoint_registration envNoAdd "apm" false eP st0).1 (by decide)⟩,
    (C9_default_endpoint_registration envNoAdd "apm" false eP st0).2⟩

/-! ### C10: the original error survives a failing rollback -/

/-- Environment in which every proxy add fails but clearing succeeds, so the
rollback path clears the live set and then fails to restore the snapshot. -/
def envBadReset : ProxyEnv :=
  ⟨fun _ _ => false, fun _ _ => true, fun _ => true, fun _ => true, true, enumU⟩

/-- Environment in which removals fail and everything else succeeds. -/
def envNoRemove : ProxyEnv :=
  ⟨fun _ _ => true, fun _ _ => false, fun _ => true, fun _ => true, true, enumU⟩

/-- C10: `_reset_endpoints` swallows every exception, so a failing
`add_new_endpoints` or `remove_endpoints` call always propagates the original
per-endpoint error, never a rollback error — even when restoring the snapshot
itself fails, in which case the live set silently differs from the pre-call
snapshot (concretely: with every re-add failing, the failed add of `eB` still
reports the `eB` add error while the live set has been wiped). -/
theorem C10_original_error_survives :
    (∀ (env : ProxyEnv) (l : List Endpoint) (st : APMState) (e : Endpoint)
        (liveF : Finset Endpoint),
      addLoop env l st.live = .error (e, liveF) →
      (add_new_endpoints env l st).2 = some (.addErr e)) ∧
    (∀ (env : ProxyEnv) (l : List Endpoint) (st : APMState) (e : Endpoint)
        (liveF : Finset Endpoint),
      l.toFinset.filter (fun x => x.«protected») = ∅ →
      removeLoop env l st.live = .error (e, liveF) →
      (remove_endpoints env l st).2 = some (.removeErr e)) ∧
    ((add_new_endpoints envBadReset [eB] stA).2 = some (.addErr eB) ∧
      (add_new_endpoints envBadReset [eB] stA).1.live ≠ stA.live) := by
  refine ⟨?_, ?_, by decide, by decide⟩
  · intro env l st e liveF h
    unfold add_new_endpoints
    rw [h]
  · intro env l st e liveF hprot h
    unfold remove_endpoints
    rw [if_pos hprot, h]

/-- C10 witness: a failing add of `eB` and a failing removal of `eA` each
propagate exactly the original per-endpoint error. -/
theorem C10_witness :
    (addLoop envBadReset [eB] stA.live = .error (eB, {eA}) ∧
      (add_new_endpoints envBadReset [eB] stA).2 = some (.addErr eB)) ∧
    (([eA] : List Endpoint).toFinset.filter (fun x => x.«protected») = ∅ ∧
      removeLoop envNoRemove [eA] stA.live = .error (eA, {eA}) ∧
      (remove_endpoints envNoRemove [eA] stA).2 = some (.removeErr eA)) :=
  ⟨⟨by decide,
      C10_original_error_survives.1 envBadReset [eB] stA eB {eA} (by decide)⟩,
    ⟨by decide, by decide,
      C10_original_error_survives.2.1 envNoRemove [eA] stA eA {eA}
        (by decide) (by decide)⟩⟩
